import Mathlib

/-!
Shallow embedding of the UCBHackathon2025 stroke-detection pipeline
(`multi_tool_agent/stroke_detection`).  Pure data flow is modelled; the
wall-clock timestamp fields, identifiers derived from the current time and
free-text message strings of the Python code are omitted, since no claim
depends on them.  Python strings are modelled as Lean `String`, Python
substring containment (`needle in hay`) as `List.isInfixOf` on the
character lists, and `str.lower` as ASCII lowercasing (all vocabulary and
all inputs considered here are ASCII).
-/

namespace StrokeDetection

/-- ASCII lowercasing of one character, the ASCII restriction of Python
`str.lower` as applied by `analyze_stroke_symptoms`. -/
def asciiLower (c : Char) : Char :=
  if 65 ≤ c.toNat ∧ c.toNat ≤ 90 then Char.ofNat (c.toNat + 32) else c

/-- Lowercase a whole text (list of characters). -/
def lowerText (s : List Char) : List Char := s.map asciiLower

/-- Substring occurrence on character lists: `needle` is a prefix of some
suffix of `hay`. -/
def infixAt (needle : List Char) : List Char → Bool
  | [] => needle.isEmpty
  | c :: t => needle.isPrefixOf (c :: t) || infixAt needle t

/-- Python `needle in hay` on strings: substring containment. -/
def containsSub (needle : String) (hay : List Char) : Bool :=
  infixAt needle.toList hay

/-- Face vocabulary of `analyze_stroke_symptoms`
(`stroke_detection/agents/symptom_agent.py`, lines 20-25). -/
def face_symptoms : List String :=
  ["face drooping", "facial droop", "face droop", "one side of face",
   "smile uneven", "can\x27t smile", "mouth drooping", "facial weakness",
   "numb face", "face feels strange"]

/-- Arm vocabulary (symptom_agent.py lines 27-31). -/
def arm_symptoms : List String :=
  ["arm weakness", "can\x27t lift arm", "arm feels heavy", "arm numb",
   "one arm weak", "arm tingling", "can\x27t raise arm", "arm paralyzed",
   "hand weakness", "drop arm"]

/-- Speech vocabulary (symptom_agent.py lines 33-37). -/
def speech_symptoms : List String :=
  ["slurred speech", "can\x27t speak", "speech unclear", "difficulty speaking",
   "words don\x27t come out", "trouble talking", "speech problems",
   "mumbling", "can\x27t find words", "confused speech"]

/-- Other stroke symptom vocabulary (symptom_agent.py lines 39-43). -/
def other_stroke_symptoms : List String :=
  ["sudden headache", "severe headache", "worst headache", "vision loss",
   "double vision", "blurred vision", "dizziness", "loss of balance",
   "confusion", "sudden numbness", "sudden weakness"]

/-- The `detected_symptoms` dictionary built by `analyze_stroke_symptoms`:
for each category, the vocabulary entries that occur as substrings of the
lowercased input, in vocabulary order (the appending loop of
symptom_agent.py lines 52-66 is a filter over the vocabulary list). -/
structure DetectedSymptoms where
  face : List String
  arm : List String
  speech : List String
  other : List String
deriving DecidableEq, Repr

/-- Pattern-matching phase of `analyze_stroke_symptoms`
(symptom_agent.py lines 17, 45-66). -/
def detectSymptoms (input_text : String) : DetectedSymptoms :=
  let t := lowerText input_text.toList
  { face := face_symptoms.filter (fun p => containsSub p t)
    arm := arm_symptoms.filter (fun p => containsSub p t)
    speech := speech_symptoms.filter (fun p => containsSub p t)
    other := other_stroke_symptoms.filter (fun p => containsSub p t) }

/-- Risk-score phase of `analyze_stroke_symptoms`
(symptom_agent.py lines 68-77): +3 for each nonempty FAST category, plus
the raw count of matched other symptoms when that list is nonempty. -/
def fastScoreOf (ds : DetectedSymptoms) : Nat :=
  (if ds.face ≠ [] then 3 else 0) +
  (if ds.arm ≠ [] then 3 else 0) +
  (if ds.speech ≠ [] then 3 else 0) +
  (if ds.other ≠ [] then ds.other.length else 0)

/-- Severity phase of `analyze_stroke_symptoms`
(symptom_agent.py lines 79-88). -/
def severityOf (fast_score : Nat) : String :=
  if 6 ≤ fast_score then "critical"
  else if 3 ≤ fast_score then "warning"
  else "normal"

/-- The pure fields of the dictionary returned by `analyze_stroke_symptoms`
(symptom_agent.py lines 90-100). -/
structure SymptomResult where
  detected_symptoms : DetectedSymptoms
  fast_score : Nat
  severity : String
  requires_triage : Bool
deriving DecidableEq, Repr

/-- `analyze_stroke_symptoms(input_text, patient_id)`
(symptom_agent.py lines 6-100), pure fields. -/
def analyze_stroke_symptoms (input_text : String) : SymptomResult :=
  let ds := detectSymptoms input_text
  let n := fastScoreOf ds
  { detected_symptoms := ds
    fast_score := n
    severity := severityOf n
    requires_triage := decide (3 ≤ n) }

/-- Urgency-score phase of `perform_fast_assessment`
(`stroke_detection/agents/triage_agent.py`, lines 39-51): +30 per FAST
flag, plus `min(10, 2 * len(other))` when other symptoms were detected.
The `symptom_data` argument is `none` when the input dictionary has no
`detected_symptoms` key. -/
def urgencyScoreOf (symptom_data : Option DetectedSymptoms) : Nat :=
  let face := match symptom_data with | some ds => !ds.face.isEmpty | none => false
  let arms := match symptom_data with | some ds => !ds.arm.isEmpty | none => false
  let speech := match symptom_data with | some ds => !ds.speech.isEmpty | none => false
  (if face then 30 else 0) + (if arms then 30 else 0) + (if speech then 30 else 0) +
  (match symptom_data with
   | some ds => if !ds.other.isEmpty then min 10 (ds.other.length * 2) else 0
   | none => 0)

/-- Triage-level phase of `perform_fast_assessment`
(triage_agent.py lines 53-69). -/
def triageLevelOf (urgency_score : Nat) : String :=
  if 70 ≤ urgency_score then "IMMEDIATE"
  else if 40 ≤ urgency_score then "URGENT"
  else if 20 ≤ urgency_score then "SEMI-URGENT"
  else "NON-URGENT"

/-- The pure fields of the dictionary returned by `perform_fast_assessment`
(triage_agent.py lines 71-82). -/
structure TriageResult where
  face : Bool
  arms : Bool
  speech : Bool
  urgency_score : Nat
  triage_level : String
  requires_immediate_attention : Bool
  requires_emergency_transport : Bool
deriving DecidableEq, Repr

/-- `perform_fast_assessment(symptom_data, patient_id)`
(triage_agent.py lines 5-82), pure fields. -/
def perform_fast_assessment (symptom_data : Option DetectedSymptoms) : TriageResult :=
  let u := urgencyScoreOf symptom_data
  { face := match symptom_data with | some ds => !ds.face.isEmpty | none => false
    arms := match symptom_data with | some ds => !ds.arm.isEmpty | none => false
    speech := match symptom_data with | some ds => !ds.speech.isEmpty | none => false
    urgency_score := u
    triage_level := triageLevelOf u
    requires_immediate_attention := decide (70 ≤ u)
    requires_emergency_transport := decide (40 ≤ u) }

/-- The recipient types chosen by `send_emergency_alert`
(`stroke_detection/agents/alert_agent.py`, lines 22-42), in list order. -/
def alertRecipients (urgency_score : Nat) : List String :=
  if 70 ≤ urgency_score then
    ["911", "stroke_team", "emergency_contact", "hospital"]
  else if 40 ≤ urgency_score then
    ["emergency_services", "emergency_contact", "primary_care"]
  else if 20 ≤ urgency_score then
    ["emergency_contact", "primary_care"]
  else []

/-- The pure fields of the dictionary returned by `send_emergency_alert`
(alert_agent.py lines 44-62). -/
structure AlertResult where
  recipients : List String
  total_recipients : Nat
deriving DecidableEq, Repr

/-- `send_emergency_alert(patient_id, triage_data)` (alert_agent.py lines
6-62), pure fields: the recipient list and its length. -/
def send_emergency_alert (urgency_score : Nat) : AlertResult :=
  let r := alertRecipients urgency_score
  { recipients := r, total_recipients := r.length }

/-- The set of instruction-section keys built by
`provide_immediate_care_instructions`
(`stroke_detection/agents/care_agent.py`, lines 16-76), as the list of
dictionary keys in insertion order.  The four base sections are always
present; `face_care`, `arm_care`, `communication` are keyed on the FAST
flags of the triage assessment and `critical_care` on the urgency score. -/
def provide_immediate_care_instructions
    (urgency_score : Nat) (face arms speech : Bool) : List String :=
  ["immediate_actions", "positioning", "monitoring", "do_not_do"] ++
  (if face then ["face_care"] else []) ++
  (if arms then ["arm_care"] else []) ++
  (if speech then ["communication"] else []) ++
  (if 70 ≤ urgency_score then ["critical_care"] else [])

/-- The pure stage outputs of one `orchestrate_stroke_detection` run
(`stroke_detection/coordinator.py`, lines 36-128): the symptom analysis,
then — only when `requires_triage` — the triage assessment, the alert
dispatch (only when immediate attention is required or the urgency score
is at least 40), and the care-instruction keys. -/
structure PipelineOutput where
  symptom_analysis : SymptomResult
  triage_assessment : Option TriageResult
  emergency_alert : Option AlertResult
  care_instructions : Option (List String)
deriving DecidableEq, Repr

/-- Data flow of `orchestrate_stroke_detection(patient_id, input_data)`
for a text input (coordinator.py lines 36-128), pure stage results. -/
def orchestrate_stroke_detection (input_text : String) : PipelineOutput :=
  let s := analyze_stroke_symptoms input_text
  if s.requires_triage then
    let tr := perform_fast_assessment (some s.detected_symptoms)
    let al :=
      if tr.requires_immediate_attention || decide (40 ≤ tr.urgency_score) then
        some (send_emergency_alert tr.urgency_score)
      else none
    { symptom_analysis := s
      triage_assessment := some tr
      emergency_alert := al
      care_instructions :=
        some (provide_immediate_care_instructions tr.urgency_score tr.face tr.arms tr.speech) }
  else
    { symptom_analysis := s
      triage_assessment := none
      emergency_alert := none
      care_instructions := none }

/-- One processed-patient entry of `process_batch_assessments`
(coordinator.py lines 214-222): the fields the priority queue reads. -/
structure PatientRecord where
  patient_id : String
  urgency_score : Nat
deriving DecidableEq, Repr

/-- One entry of the priority queue built by `process_batch_assessments`
(coordinator.py lines 231-236). -/
structure QueueEntry where
  priority_rank : Nat
  patient_id : String
  urgency_score : Nat
  requires_immediate_attention : Bool
deriving DecidableEq, Repr

/-- Stable descending insertion used to model Python `sorted(l,
key=urgency_score, reverse=True)` (coordinator.py lines 224-229): the new
element passes every element of strictly larger key and lands in front of
the first element of smaller-or-equal key, so elements of equal key keep
their relative order.  Python `sorted` is specified to be stable, which
this insertion sort realises. -/
def insertByUrgencyDesc (x : PatientRecord) : List PatientRecord → List PatientRecord
  | [] => [x]
  | y :: ys =>
    if x.urgency_score < y.urgency_score then y :: insertByUrgencyDesc x ys
    else x :: y :: ys

/-- Stable sort by urgency score, descending (Python `sorted` with
`reverse=True`, coordinator.py lines 224-229). -/
def sortByUrgencyDesc : List PatientRecord → List PatientRecord
  | [] => []
  | x :: xs => insertByUrgencyDesc x (sortByUrgencyDesc xs)

/-- The rank-assignment loop `for i, patient in enumerate(sorted_patients)`
(coordinator.py lines 231-236): ranks are `i + 1` down the sorted list. -/
def attachRanks (i : Nat) : List PatientRecord → List QueueEntry
  | [] => []
  | p :: ps =>
    { priority_rank := i + 1
      patient_id := p.patient_id
      urgency_score := p.urgency_score
      requires_immediate_attention := decide (70 ≤ p.urgency_score) } :: attachRanks (i + 1) ps

/-- Priority-queue construction of `process_batch_assessments`
(coordinator.py lines 223-236), from the processed-patient list. -/
def process_batch_assessments (patients : List PatientRecord) : List QueueEntry :=
  attachRanks 0 (sortByUrgencyDesc patients)

/-- The mutable `workflow_results` record of `orchestrate_stroke_detection`
(coordinator.py lines 27-35), restricted to the fields the error path
touches: status, error description, whether `end_time` was written, the
stage results gathered so far and the agents executed so far. -/
structure Workflow where
  status : String
  error : Option String
  end_time_set : Bool
  results : List (String × String)
  agents_executed : List String
deriving DecidableEq, Repr

/-- The initial `workflow_results` value (coordinator.py lines 27-35). -/
def initialWorkflow : Workflow :=
  { status := "in_progress", error := none, end_time_set := false
    results := [], agents_executed := [] }

/-- One stage of the `try` body of `orchestrate_stroke_detection`: it
either extends the workflow record with its results or raises a fault
carrying its description, as a Python exception would. -/
def Stage : Type := Workflow → Except String Workflow

/-- Sequential execution of the `try` body (coordinator.py lines 37-128):
stages run in order; the first fault aborts the remaining stages and
surfaces together with the workflow record as mutated so far. -/
def runStages : List Stage → Workflow → Except (String × Workflow) Workflow
  | [], w => .ok w
  | st :: rest, w =>
    match st w with
    | .ok w2 => runStages rest w2
    | .error e => .error (e, w)

/-- Control-flow skeleton of `orchestrate_stroke_detection`
(coordinator.py lines 36-137): the staged `try` body wrapped in the
`except Exception` handler, which stamps status `error`, stores the fault
description and sets `end_time` on the record gathered so far; on success
the status becomes `completed` and `end_time` is set (lines 121-135). -/
def orchestrate_workflow (stages : List Stage) (w0 : Workflow) : Workflow :=
  match runStages stages w0 with
  | .ok w => { w with status := "completed", end_time_set := true }
  | .error (e, w) => { w with status := "error", error := some e, end_time_set := true }

/-- Decimal value of two digit characters. -/
def num2 (a b : Char) : Nat := 10 * (a.toNat - 48) + (b.toNat - 48)

/-- Decimal value of four digit characters. -/
def num4 (a b c d : Char) : Nat :=
  1000 * (a.toNat - 48) + 100 * (b.toNat - 48) + 10 * (c.toNat - 48) + (d.toNat - 48)

/-- Gregorian leap-year rule, as Python `datetime` uses. -/
def isLeapYear (y : Nat) : Bool :=
  (y % 4 == 0 && y % 100 != 0) || y % 400 == 0

/-- Number of days in a month (Python `datetime` validation range). -/
def daysInMonth (y m : Nat) : Nat :=
  if m = 2 then (if isLeapYear y then 29 else 28)
  else if m = 4 ∨ m = 6 ∨ m = 9 ∨ m = 11 then 30
  else 31

/-- Julian day number of a Gregorian calendar date (valid for year ≥ 1),
used to give timestamps a linear time scale so that `datetime`
subtraction is a subtraction of counters. -/
def julianDay (y m d : Nat) : Nat :=
  let a := (14 - m) / 12
  let y2 := y + 4800 - a
  let m2 := m + 12 * a - 3
  d + (153 * m2 + 2) / 5 + 365 * y2 + y2 / 4 - y2 / 100 + y2 / 400 - 32045

/-- `datetime.datetime.fromisoformat` restricted to the
`YYYY-MM-DDTHH:MM:SS` shape (a space separator is also accepted), mapped
to a second counter; malformed or out-of-range timestamps give `none`,
as `fromisoformat` raises `ValueError`
(`stroke_detection/agents/followup_agent.py`, lines 46-47). -/
def parseIsoSeconds (s : String) : Option Nat :=
  match s.toList with
  | [y1, y2, y3, y4, s1, m1, m2, s2, d1, d2, sep, h1, h2, c1, n1, n2, c2, e1, e2] =>
    if ([y1, y2, y3, y4, m1, m2, d1, d2, h1, h2, n1, n2, e1, e2].all Char.isDigit) &&
       s1 == '-' && s2 == '-' && (sep == 'T' || sep == ' ') && c1 == ':' && c2 == ':' then
      let y := num4 y1 y2 y3 y4
      let mo := num2 m1 m2
      let d := num2 d1 d2
      let h := num2 h1 h2
      let mi := num2 n1 n2
      let se := num2 e1 e2
      if 1 ≤ y ∧ 1 ≤ mo ∧ mo ≤ 12 ∧ 1 ≤ d ∧ d ≤ daysInMonth y mo ∧
         h ≤ 23 ∧ mi ≤ 59 ∧ se ≤ 59 then
        some (julianDay y mo d * 86400 + h * 3600 + mi * 60 + se)
      else none
    else none
  | _ => none

/-- The `door_to_needle_eligible` entry of the event log built by
`log_stroke_event` (followup_agent.py lines 44-51), from the two optional
timeline timestamps.  `none` models the key being absent (the guard
`if onset and arrival` was falsy), `some none` the key being set to
Python `None` (a timestamp failed to parse), and `some (some b)` the
computed flag `elapsed_minutes <= 270`. -/
def log_stroke_event (symptom_onset hospital_arrival : Option String) :
    Option (Option Bool) :=
  match symptom_onset, hospital_arrival with
  | some o, some a =>
    if o ≠ "" ∧ a ≠ "" then
      match parseIsoSeconds o, parseIsoSeconds a with
      | some t1, some t2 => some (some (decide ((t2 : Int) - (t1 : Int) ≤ 270 * 60)))
      | _, _ => some none
    else none
  | _, _ => none

/-- Number of detected other symptoms carried in a `symptom_data`
dictionary (0 when the `detected_symptoms` key is absent). -/
def otherCount (symptom_data : Option DetectedSymptoms) : Nat :=
  match symptom_data with
  | some ds => ds.other.length
  | none => 0

lemma severityOf_critical_iff (n : Nat) : severityOf n = "critical" ↔ 6 ≤ n := by
  unfold severityOf
  split_ifs with h6 h3
  · exact iff_of_true rfl h6
  · exact iff_of_false (by decide) h6
  · exact iff_of_false (by decide) h6

lemma severityOf_warning_iff (n : Nat) : severityOf n = "warning" ↔ 3 ≤ n ∧ n < 6 := by
  unfold severityOf
  split_ifs with h6 h3
  · exact iff_of_false (by decide) (by omega)
  · exact iff_of_true rfl ⟨h3, by omega⟩
  · exact iff_of_false (by decide) (by omega)

lemma severityOf_normal_iff (n : Nat) : severityOf n = "normal" ↔ n < 3 := by
  unfold severityOf
  split_ifs with h6 h3
  · exact iff_of_false (by decide) (by omega)
  · exact iff_of_false (by decide) (by omega)
  · exact iff_of_true rfl (by omega)

lemma urgencyScoreOf_eq (sd : Option DetectedSymptoms) :
    urgencyScoreOf sd =
      (if (perform_fast_assessment sd).face then 30 else 0) +
      (if (perform_fast_assessment sd).arms then 30 else 0) +
      (if (perform_fast_assessment sd).speech then 30 else 0) +
      min 10 (2 * otherCount sd) := by
  cases sd with
  | none => rfl
  | some ds =>
    show _ = _ + (_ : Nat)
    unfold urgencyScoreOf perform_fast_assessment otherCount
    cases ho : ds.other.isEmpty with
    | true =>
      have : ds.other = [] := by
        cases h : ds.other with
        | nil => rfl
        | cons a l => rw [h] at ho; exact absurd ho (by simp)
      simp [this]
    | false => simp [ho, Nat.mul_comm]

lemma triageLevelOf_immediate_iff (u : Nat) : triageLevelOf u = "IMMEDIATE" ↔ 70 ≤ u := by
  unfold triageLevelOf
  split_ifs with h70 h40 h20
  · exact iff_of_true rfl h70
  · exact iff_of_false (by decide) h70
  · exact iff_of_false (by decide) h70
  · exact iff_of_false (by decide) h70

lemma triageLevelOf_urgent_iff (u : Nat) : triageLevelOf u = "URGENT" ↔ 40 ≤ u ∧ u < 70 := by
  unfold triageLevelOf
  split_ifs with h70 h40 h20
  · exact iff_of_false (by decide) (by omega)
  · exact iff_of_true rfl ⟨h40, by omega⟩
  · exact iff_of_false (by decide) (by omega)
  · exact iff_of_false (by decide) (by omega)

lemma triageLevelOf_semi_iff (u : Nat) : triageLevelOf u = "SEMI-URGENT" ↔ 20 ≤ u ∧ u < 40 := by
  unfold triageLevelOf
  split_ifs with h70 h40 h20
  · exact iff_of_false (by decide) (by omega)
  · exact iff_of_false (by decide) (by omega)
  · exact iff_of_true rfl ⟨h20, by omega⟩
  · exact iff_of_false (by decide) (by omega)

lemma triageLevelOf_non_iff (u : Nat) : triageLevelOf u = "NON-URGENT" ↔ u < 20 := by
  unfold triageLevelOf
  split_ifs with h70 h40 h20
  · exact iff_of_false (by decide) (by omega)
  · exact iff_of_false (by decide) (by omega)
  · exact iff_of_false (by decide) (by omega)
  · exact iff_of_true rfl (by omega)

/-- C2: for every symptom-data input, the urgency score of
`perform_fast_assessment` equals 30 per FAST flag plus
`min(10, 2 * number_of_other_matches)`, and always lies in [0, 100]. -/
theorem urgency_score_formula (sd : Option DetectedSymptoms) :
    (perform_fast_assessment sd).urgency_score =
      30 * (perform_fast_assessment sd).face.toNat +
      30 * (perform_fast_assessment sd).arms.toNat +
      30 * (perform_fast_assessment sd).speech.toNat +
      min 10 (2 * otherCount sd) ∧
    (perform_fast_assessment sd).urgency_score ≤ 100 := by
  have h : (perform_fast_assessment sd).urgency_score = urgencyScoreOf sd := rfl
  rw [h, urgencyScoreOf_eq sd]
  cases (perform_fast_assessment sd).face <;>
    cases (perform_fast_assessment sd).arms <;>
      cases (perform_fast_assessment sd).speech <;>
        (constructor <;> simp <;> omega)

/-- C10: the urgency score of `perform_fast_assessment` is always even,
since each contribution (30 per FAST flag, `min(10, 2k)` for other
symptoms) is even; odd scores such as 69 are never produced. -/
theorem urgency_score_even (sd : Option DetectedSymptoms) :
    (perform_fast_assessment sd).urgency_score % 2 = 0 := by
  have h : (perform_fast_assessment sd).urgency_score = urgencyScoreOf sd := rfl
  rw [h, urgencyScoreOf_eq sd]
  cases (perform_fast_assessment sd).face <;>
    cases (perform_fast_assessment sd).arms <;>
      cases (perform_fast_assessment sd).speech <;> simp <;> omega

/-- C3: `perform_fast_assessment` assigns exactly one band by the ordered
thresholds 70/40/20, sets `requires_immediate_attention` exactly when the
score is at least 70 and `requires_emergency_transport` exactly when it is
at least 40, so every immediate case is also a transport case. -/
theorem triage_bands (sd : Option DetectedSymptoms) :
    ((perform_fast_assessment sd).triage_level = "IMMEDIATE" ↔
        70 ≤ (perform_fast_assessment sd).urgency_score) ∧
    ((perform_fast_assessment sd).triage_level = "URGENT" ↔
        40 ≤ (perform_fast_assessment sd).urgency_score ∧
        (perform_fast_assessment sd).urgency_score < 70) ∧
    ((perform_fast_assessment sd).triage_level = "SEMI-URGENT" ↔
        20 ≤ (perform_fast_assessment sd).urgency_score ∧
        (perform_fast_assessment sd).urgency_score < 40) ∧
    ((perform_fast_assessment sd).triage_level = "NON-URGENT" ↔
        (perform_fast_assessment sd).urgency_score < 20) ∧
    ((perform_fast_assessment sd).requires_immediate_attention = true ↔
        70 ≤ (perform_fast_assessment sd).urgency_score) ∧
    ((perform_fast_assessment sd).requires_emergency_transport = true ↔
        40 ≤ (perform_fast_assessment sd).urgency_score) ∧
    ((perform_fast_assessment sd).requires_immediate_attention = true →
        (perform_fast_assessment sd).requires_emergency_transport = true) := by
  have hl : (perform_fast_assessment sd).triage_level = triageLevelOf (urgencyScoreOf sd) := rfl
  have hu : (perform_fast_assessment sd).urgency_score = urgencyScoreOf sd := rfl
  have hi : (perform_fast_assessment sd).requires_immediate_attention =
      decide (70 ≤ urgencyScoreOf sd) := rfl
  have ht : (perform_fast_assessment sd).requires_emergency_transport =
      decide (40 ≤ urgencyScoreOf sd) := rfl
  rw [hl, hu, hi, ht]
  refine ⟨triageLevelOf_immediate_iff _, triageLevelOf_urgent_iff _,
    triageLevelOf_semi_iff _, triageLevelOf_non_iff _, ?_, ?_, ?_⟩
  · exact decide_eq_true_iff
  · exact decide_eq_true_iff
  · intro h
    have h70 : 70 ≤ urgencyScoreOf sd := (decide_eq_true_iff).mp h
    exact (decide_eq_true_iff).mpr (by omega)

/-- C3 witness: on a symptom dictionary with all three FAST categories
matched, the assessment requires immediate attention and therefore also
emergency transport. -/
theorem triage_bands_witness :
    (perform_fast_assessment
      (some ⟨["face drooping"], ["arm numb"], ["slurred speech"], []⟩)).requires_emergency_transport
      = true :=
  (triage_bands (some ⟨["face drooping"], ["arm numb"], ["slurred speech"], []⟩)).2.2.2.2.2.2
    (by decide)

/-- C4: `analyze_stroke_symptoms` sets severity to `critical` exactly when
the composite score is at least 6, `warning` exactly when it is in [3, 6),
`normal` otherwise, and `requires_triage` exactly when the score is at
least 3. -/
theorem severity_thresholds (t : String) :
    ((analyze_stroke_symptoms t).severity = "critical" ↔
        6 ≤ (analyze_stroke_symptoms t).fast_score) ∧
    ((analyze_stroke_symptoms t).severity = "warning" ↔
        3 ≤ (analyze_stroke_symptoms t).fast_score ∧
        (analyze_stroke_symptoms t).fast_score < 6) ∧
    ((analyze_stroke_symptoms t).severity = "normal" ↔
        (analyze_stroke_symptoms t).fast_score < 3) ∧
    ((analyze_stroke_symptoms t).requires_triage = true ↔
        3 ≤ (analyze_stroke_symptoms t).fast_score) := by
  have hs : (analyze_stroke_symptoms t).severity =
      severityOf (fastScoreOf (detectSymptoms t)) := rfl
  have hn : (analyze_stroke_symptoms t).fast_score = fastScoreOf (detectSymptoms t) := rfl
  have hr : (analyze_stroke_symptoms t).requires_triage =
      decide (3 ≤ fastScoreOf (detectSymptoms t)) := rfl
  rw [hs, hn, hr]
  exact ⟨severityOf_critical_iff _, severityOf_warning_iff _, severityOf_normal_iff _,
    decide_eq_true_iff⟩

/-- C6: `provide_immediate_care_instructions` always includes the four
base sections, includes `face_care` / `arm_care` / `communication` exactly
when the corresponding FAST flag is true, and `critical_care` exactly when
the urgency score is at least 70, over all combinations of the drivers. -/
theorem care_sections (u : Nat) (face arms speech : Bool) :
    "immediate_actions" ∈ provide_immediate_care_instructions u face arms speech ∧
    "positioning" ∈ provide_immediate_care_instructions u face arms speech ∧
    "monitoring" ∈ provide_immediate_care_instructions u face arms speech ∧
    "do_not_do" ∈ provide_immediate_care_instructions u face arms speech ∧
    ("face_care" ∈ provide_immediate_care_instructions u face arms speech ↔ face = true) ∧
    ("arm_care" ∈ provide_immediate_care_instructions u face arms speech ↔ arms = true) ∧
    ("communication" ∈ provide_immediate_care_instructions u face arms speech ↔ speech = true) ∧
    ("critical_care" ∈ provide_immediate_care_instructions u face arms speech ↔ 70 ≤ u) := by
  by_cases h : 70 ≤ u <;>
    cases face <;> cases arms <;> cases speech <;>
      simp [provide_immediate_care_instructions, h]

lemma filter_ne_nil_iff_any {α : Type} (p : α → Bool) (l : List α) :
    l.filter p ≠ [] ↔ l.any p = true := by
  induction l with
  | nil => simp
  | cons a l ih =>
    by_cases h : p a <;> simp [List.filter_cons, h, ih]

/-- C1 counterexample: on the input `"dizziness"` exactly one other
indicator matches and no FAST category matches, yet the composite score is
1, not `min(10, 2 * 1) = 2` as the claim states. -/
theorem fast_score_other_counterexample :
    (analyze_stroke_symptoms "dizziness").detected_symptoms.face = [] ∧
    (analyze_stroke_symptoms "dizziness").detected_symptoms.arm = [] ∧
    (analyze_stroke_symptoms "dizziness").detected_symptoms.speech = [] ∧
    (analyze_stroke_symptoms "dizziness").detected_symptoms.other.length = 1 ∧
    (analyze_stroke_symptoms "dizziness").fast_score ≠ min 10 (2 * 1) := by
  decide

/-- C1 amended: the composite score of `analyze_stroke_symptoms` is 3 for
each of the face, arm and speech categories with at least one vocabulary
match (independent of how many indicators matched), plus the raw count of
matched other indicators (not `min(10, 2 * count)`). -/
theorem fast_score_formula (t : String) :
    (analyze_stroke_symptoms t).fast_score =
      (if face_symptoms.any (fun p => containsSub p (lowerText t.toList)) then 3 else 0) +
      (if arm_symptoms.any (fun p => containsSub p (lowerText t.toList)) then 3 else 0) +
      (if speech_symptoms.any (fun p => containsSub p (lowerText t.toList)) then 3 else 0) +
      other_stroke_symptoms.countP (fun p => containsSub p (lowerText t.toList)) := by
  have h : (analyze_stroke_symptoms t).fast_score = fastScoreOf (detectSymptoms t) := rfl
  rw [h]
  unfold fastScoreOf detectSymptoms
  have hface := filter_ne_nil_iff_any (fun p => containsSub p (lowerText t.toList)) face_symptoms
  have harm := filter_ne_nil_iff_any (fun p => containsSub p (lowerText t.toList)) arm_symptoms
  have hspeech := filter_ne_nil_iff_any (fun p => containsSub p (lowerText t.toList)) speech_symptoms
  have hcount : (other_stroke_symptoms.filter (fun p => containsSub p (lowerText t.toList))).length
      = other_stroke_symptoms.countP (fun p => containsSub p (lowerText t.toList)) :=
    (List.countP_eq_length_filter _ _).symm
  by_cases ho : other_stroke_symptoms.filter (fun p => containsSub p (lowerText t.toList)) = []
  · simp only [hface, harm, hspeech, ← hcount, ho]
    simp
  · simp only [hface, harm, hspeech, ← hcount, if_pos ho]

/-- The end-to-end scenario input of the specification. -/
def scenario_input : String := "my face is drooping and I can\x27t speak"

/-- C5 counterexample: on the scenario input the face category matches no
vocabulary phrase (the text reads `face is drooping`, no phrase of the
face list is a substring), the composite score is 3 rather than 6, the
severity is not `critical`, and no alert is dispatched. -/
theorem scenario_counterexample :
    (orchestrate_stroke_detection scenario_input).symptom_analysis.detected_symptoms.face = [] ∧
    (orchestrate_stroke_detection scenario_input).symptom_analysis.fast_score = 3 ∧
    (orchestrate_stroke_detection scenario_input).symptom_analysis.fast_score ≠ 6 ∧
    (orchestrate_stroke_detection scenario_input).symptom_analysis.severity ≠ "critical" ∧
    (orchestrate_stroke_detection scenario_input).emergency_alert = none := by
  decide

/-- C5 amended: on the scenario input only the speech category matches
(via `can't speak`), giving composite score 3, severity `warning`,
`requires_triage` true, urgency score 30, band `SEMI-URGENT`, no immediate
attention, no emergency transport, no alert dispatched (the alert stage is
skipped), and care instructions containing `communication` but neither
`face_care` nor `critical_care`. -/
theorem scenario_actual :
    (orchestrate_stroke_detection scenario_input).symptom_analysis.detected_symptoms =
      { face := [], arm := [], speech := ["can\x27t speak"], other := [] } ∧
    (orchestrate_stroke_detection scenario_input).symptom_analysis.fast_score = 3 ∧
    (orchestrate_stroke_detection scenario_input).symptom_analysis.severity = "warning" ∧
    (orchestrate_stroke_detection scenario_input).symptom_analysis.requires_triage = true ∧
    (orchestrate_stroke_detection scenario_input).triage_assessment =
      some { face := false, arms := false, speech := true, urgency_score := 30,
             triage_level := "SEMI-URGENT", requires_immediate_attention := false,
             requires_emergency_transport := false } ∧
    (orchestrate_stroke_detection scenario_input).emergency_alert = none ∧
    (orchestrate_stroke_detection scenario_input).care_instructions =
      some ["immediate_actions", "positioning", "monitoring", "do_not_do", "communication"] := by
  decide

lemma mem_insertByUrgencyDesc {z x : PatientRecord} {l : List PatientRecord} :
    z ∈ insertByUrgencyDesc x l ↔ z = x ∨ z ∈ l := by
  induction l with
  | nil => simp [insertByUrgencyDesc]
  | cons y ys ih =>
    unfold insertByUrgencyDesc
    by_cases h : x.urgency_score < y.urgency_score
    · rw [if_pos h]
      simp only [List.mem_cons, ih]
      tauto
    · rw [if_neg h]
      simp [List.mem_cons]

lemma sorted_insertByUrgencyDesc (x : PatientRecord) (l : List PatientRecord)
    (h : List.Pairwise (fun a b => b.urgency_score ≤ a.urgency_score) l) :
    List.Pairwise (fun a b => b.urgency_score ≤ a.urgency_score) (insertByUrgencyDesc x l) := by
  induction l with
  | nil => simp [insertByUrgencyDesc]
  | cons y ys ih =>
    rcases List.pairwise_cons.mp h with ⟨hy, hys⟩
    unfold insertByUrgencyDesc
    by_cases hlt : x.urgency_score < y.urgency_score
    · rw [if_pos hlt]
      refine List.pairwise_cons.mpr ⟨?_, ih hys⟩
      intro z hz
      rcases mem_insertByUrgencyDesc.mp hz with rfl | hz'
      · omega
      · exact hy z hz'
    · rw [if_neg hlt]
      refine List.pairwise_cons.mpr ⟨?_, h⟩
      intro z hz
      rcases List.mem_cons.mp hz with rfl | hz'
      · omega
      · have := hy z hz'
        omega

lemma sorted_sortByUrgencyDesc (l : List PatientRecord) :
    List.Pairwise (fun a b => b.urgency_score ≤ a.urgency_score) (sortByUrgencyDesc l) := by
  induction l with
  | nil => simp [sortByUrgencyDesc]
  | cons x xs ih => exact sorted_insertByUrgencyDesc x _ ih

lemma filter_insertByUrgencyDesc (x : PatientRecord) (l : List PatientRecord) (s : Nat) :
    (insertByUrgencyDesc x l).filter (fun p => p.urgency_score == s) =
      if x.urgency_score = s then
        x :: l.filter (fun p => p.urgency_score == s)
      else l.filter (fun p => p.urgency_score == s) := by
  induction l with
  | nil =>
    by_cases hx : x.urgency_score = s <;>
      simp [insertByUrgencyDesc, List.filter_cons, hx]
  | cons y ys ih =>
    unfold insertByUrgencyDesc
    by_cases hlt : x.urgency_score < y.urgency_score
    · rw [if_pos hlt]
      by_cases hy : y.urgency_score = s
      · have hx : ¬x.urgency_score = s := by omega
        simp [List.filter_cons, hy, hx, ih]
      · by_cases hx : x.urgency_score = s <;> simp [List.filter_cons, hy, hx, ih]
    · rw [if_neg hlt]
      by_cases hx : x.urgency_score = s <;> simp [List.filter_cons, hx]

lemma filter_sortByUrgencyDesc (l : List PatientRecord) (s : Nat) :
    (sortByUrgencyDesc l).filter (fun p => p.urgency_score == s) =
      l.filter (fun p => p.urgency_score == s) := by
  induction l with
  | nil => rfl
  | cons x xs ih =>
    show (insertByUrgencyDesc x (sortByUrgencyDesc xs)).filter _ = _
    rw [filter_insertByUrgencyDesc]
    by_cases hx : x.urgency_score = s <;> simp [List.filter_cons, hx, ih]

lemma length_insertByUrgencyDesc (x : PatientRecord) (l : List PatientRecord) :
    (insertByUrgencyDesc x l).length = l.length + 1 := by
  induction l with
  | nil => rfl
  | cons y ys ih =>
    unfold insertByUrgencyDesc
    by_cases h : x.urgency_score < y.urgency_score <;> simp [h, ih]

lemma length_sortByUrgencyDesc (l : List PatientRecord) :
    (sortByUrgencyDesc l).length = l.length := by
  induction l with
  | nil => rfl
  | cons x xs ih =>
    show (insertByUrgencyDesc x (sortByUrgencyDesc xs)).length = _
    rw [length_insertByUrgencyDesc, ih, List.length_cons]

lemma attachRanks_map_urgency (i : Nat) (l : List PatientRecord) :
    (attachRanks i l).map QueueEntry.urgency_score = l.map PatientRecord.urgency_score := by
  induction l generalizing i with
  | nil => rfl
  | cons p ps ih => simp [attachRanks, ih]

lemma attachRanks_map_rank (i : Nat) (l : List PatientRecord) :
    (attachRanks i l).map QueueEntry.priority_rank = List.range' (i + 1) l.length := by
  induction l generalizing i with
  | nil => rfl
  | cons p ps ih =>
    simp [attachRanks, ih, List.range']

lemma attachRanks_filter_pid (i : Nat) (l : List PatientRecord) (s : Nat) :
    ((attachRanks i l).filter (fun e => e.urgency_score == s)).map QueueEntry.patient_id =
      (l.filter (fun p => p.urgency_score == s)).map PatientRecord.patient_id := by
  induction l generalizing i with
  | nil => rfl
  | cons p ps ih =>
    by_cases h : p.urgency_score = s <;>
      simp [attachRanks, List.filter_cons, h, ih]

/-- C7: the batch priority queue of `process_batch_assessments` is sorted
by urgency score in descending order, patients of equal urgency score keep
their original input order (for every score value, filtering the queue and
the input by that score gives the same patient sequence), and priority
ranks are assigned consecutively 1..n down the queue. -/
theorem batch_priority_queue_spec (l : List PatientRecord) :
    List.Pairwise (fun a b : QueueEntry => b.urgency_score ≤ a.urgency_score)
      (process_batch_assessments l) ∧
    (∀ s : Nat,
      ((process_batch_assessments l).filter (fun e => e.urgency_score == s)).map
          QueueEntry.patient_id =
        (l.filter (fun p => p.urgency_score == s)).map PatientRecord.patient_id) ∧
    (process_batch_assessments l).map QueueEntry.priority_rank = List.range' 1 l.length := by
  refine ⟨?_, ?_, ?_⟩
  · have hs := sorted_sortByUrgencyDesc l
    have h1 : List.Pairwise (fun a b : Nat => b ≤ a)
        ((sortByUrgencyDesc l).map PatientRecord.urgency_score) :=
      List.pairwise_map.mpr hs
    have h2 : List.Pairwise (fun a b : Nat => b ≤ a)
        ((attachRanks 0 (sortByUrgencyDesc l)).map QueueEntry.urgency_score) := by
      rw [attachRanks_map_urgency]
      exact h1
    exact List.pairwise_map.mp h2
  · intro s
    show ((attachRanks 0 (sortByUrgencyDesc l)).filter _).map _ = _
    rw [attachRanks_filter_pid, filter_sortByUrgencyDesc]
  · show (attachRanks 0 (sortByUrgencyDesc l)).map _ = _
    rw [attachRanks_map_rank, length_sortByUrgencyDesc]

lemma runStages_append (pre post : List Stage) (w0 : Workflow) :
    runStages (pre ++ post) w0 =
      match runStages pre w0 with
      | .ok w => runStages post w
      | .error e => .error e := by
  induction pre generalizing w0 with
  | nil => rfl
  | cons st rest ih =>
    simp only [List.cons_append, runStages]
    cases st w0 with
    | ok w2 => exact ih w2
    | error e => rfl

/-- C8: if a stage of the orchestration raises a fault, the returned
workflow record has status `error`, carries the fault description in its
error field, has its end time set, and preserves every stage result
gathered before the fault; the stages after the faulting one are not
executed (the outcome does not depend on them). -/
theorem workflow_error_path (pre post : List Stage) (st : Stage) (w0 w : Workflow)
    (e : String) (hpre : runStages pre w0 = .ok w) (hst : st w = .error e) :
    orchestrate_workflow (pre ++ st :: post) w0 =
      { w with status := "error", error := some e, end_time_set := true } := by
  unfold orchestrate_workflow
  rw [runStages_append, hpre]
  show (match runStages (st :: post) w with
    | .ok w' => { w' with status := "completed", end_time_set := true }
    | .error (e', w') =>
        { w' with status := "error", error := some e', end_time_set := true }) = _
  simp only [runStages]
  rw [hst]

/-- A successful stage, appending its result and its agent name to the
workflow record. -/
def stageOk (name : String) : Stage := fun w =>
  .ok { w with results := w.results ++ [(name, "ok")]
               agents_executed := w.agents_executed ++ [name] }

/-- A stage that raises a fault with the given description. -/
def stageFail (msg : String) : Stage := fun w => .error msg

/-- The workflow record after the symptom stage succeeded. -/
def workflowAfterSymptom : Workflow :=
  { status := "in_progress", error := none, end_time_set := false
    results := [("symptom_agent", "ok")], agents_executed := ["symptom_agent"] }

/-- C8 witness: with a succeeding symptom stage, a faulting triage stage
and a care stage after it, the orchestration returns the error record that
keeps the symptom result and never runs the care stage. -/
theorem workflow_error_path_witness :
    runStages [stageOk "symptom_agent"] initialWorkflow = .ok workflowAfterSymptom ∧
    stageFail "triage fault" workflowAfterSymptom = .error "triage fault" ∧
    orchestrate_workflow
        [stageOk "symptom_agent", stageFail "triage fault", stageOk "care_agent"]
        initialWorkflow =
      { status := "error", error := some "triage fault", end_time_set := true
        results := [("symptom_agent", "ok")], agents_executed := ["symptom_agent"] } := by
  refine ⟨?_, ?_, ?_⟩
  · unfold runStages stageOk initialWorkflow workflowAfterSymptom
    rfl
  · rfl
  · exact workflow_error_path [stageOk "symptom_agent"] [stageOk "care_agent"]
      (stageFail "triage fault") initialWorkflow workflowAfterSymptom "triage fault"
      (by unfold runStages stageOk initialWorkflow workflowAfterSymptom; rfl) rfl

lemma parseIsoSeconds_empty : parseIsoSeconds "" = none := rfl

lemma log_stroke_event_some (x y : String) :
    log_stroke_event (some x) (some y) =
      if x ≠ "" ∧ y ≠ "" then
        match parseIsoSeconds x, parseIsoSeconds y with
        | some t1, some t2 => some (some (decide ((t2 : Int) - (t1 : Int) ≤ 270 * 60)))
        | _, _ => some none
      else none := rfl

/-- C9: when both timeline timestamps are present and parsable, the
treatment-window flag of `log_stroke_event` equals the comparison
`elapsed minutes ≤ 270`; when either timestamp is absent or unparsable,
the flag reads as null (the key is absent or set to `None`) rather than
an error being raised. -/
theorem log_event_treatment_window (o a : Option String) :
    (∀ x y t1 t2, o = some x → a = some y →
        parseIsoSeconds x = some t1 → parseIsoSeconds y = some t2 →
        log_stroke_event o a =
          some (some (decide ((((t2 : Int) - (t1 : Int) : Int) : ℚ) / 60 ≤ 270)))) ∧
    ((o = none ∨ a = none ∨
        (∃ x, o = some x ∧ parseIsoSeconds x = none) ∨
        (∃ y, a = some y ∧ parseIsoSeconds y = none)) →
      Option.join (log_stroke_event o a) = none) := by
  constructor
  · intro x y t1 t2 ho ha hx hy
    subst ho
    subst ha
    have hxe : x ≠ "" := by
      intro h
      rw [h, parseIsoSeconds_empty] at hx
      cases hx
    have hye : y ≠ "" := by
      intro h
      rw [h, parseIsoSeconds_empty] at hy
      cases hy
    have hiff : ((((t2 : Int) - (t1 : Int) : Int) : ℚ) / 60 ≤ 270) ↔
        ((t2 : Int) - (t1 : Int) ≤ 270 * 60) := by
      rw [div_le_iff₀ (by norm_num : (0:ℚ) < 60)]
      constructor
      · intro hq
        exact_mod_cast hq
      · intro hz
        exact_mod_cast hz
    rw [log_stroke_event_some, if_pos ⟨hxe, hye⟩, hx, hy, decide_eq_decide.mpr hiff]
  · intro h
    rcases h with rfl | rfl | ⟨x, rfl, hx⟩ | ⟨y, rfl, hy⟩
    · rfl
    · cases o <;> rfl
    · cases a with
      | none => rfl
      | some y =>
        rw [log_stroke_event_some]
        by_cases hg : x ≠ "" ∧ y ≠ ""
        · rw [if_pos hg, hx]
          rfl
        · rw [if_neg hg]
          rfl
    · cases o with
      | none => rfl
      | some x =>
        rw [log_stroke_event_some]
        by_cases hg : x ≠ "" ∧ y ≠ ""
        · rw [if_pos hg, hy]
          cases parseIsoSeconds x <;> rfl
        · rw [if_neg hg]
          rfl

/-- C9 witness: a 270-minute onset-to-arrival interval is still eligible,
and a missing onset timestamp reads as a null flag. -/
theorem log_event_treatment_window_witness :
    log_stroke_event (some "2024-03-01T10:00:00") (some "2024-03-01T14:30:00") =
      some (some true) ∧
    Option.join (log_stroke_event none (some "2024-03-01T14:30:00")) = none := by
  constructor
  · have h := (log_event_treatment_window
        (some "2024-03-01T10:00:00") (some "2024-03-01T14:30:00")).1
        "2024-03-01T10:00:00" "2024-03-01T14:30:00" 212576090400 212576106600
        rfl rfl rfl rfl
    have hp : (((((212576106600 : Nat) : Int) - ((212576090400 : Nat) : Int) : Int) : ℚ) / 60
        ≤ 270) := by
      norm_num
    rw [h, decide_eq_true hp]
  · exact (log_event_treatment_window none (some "2024-03-01T14:30:00")).2 (Or.inl rfl)

end StrokeDetection
